import Mathlib

/-!
Shallow embedding of `src/app.py` (MLTC Unit Conversion Calculator).

Dates are modeled as natural-number day ordinals counted from a fixed Monday
(the Python proleptic-Gregorian ordinal minus 1, so day 0 is Monday
0001-01-01).  Under this convention `d.weekday()` is `d % 7` and
`(e - s).days` is `e - s` for dates in a valid span.  Python floats are
modeled as rationals.  Weekday selection sets are modeled as `Nat → Bool`
predicates and per-weekday hours dicts as total functions `Nat → ℚ`, with
the `.get(wd, 0.0)` default made explicit at the use sites that apply it.
All span-indexed definitions are used at valid spans (`start ≤ end`), which
the app guarantees by stopping on `start_date > end_date` (lines 19-21).
-/

/-- Dates as day ordinals counted from a Monday epoch. -/
abbrev Date := Nat

/-- `d.weekday()`: 0 = Monday .. 6 = Sunday. -/
def weekday (d : Date) : Nat := d % 7

/-- `daterange_inclusive` (src/app.py lines 52-56): all days from `s` to `e`
inclusive, empty when `s > e`. -/
def daterange_inclusive (s e : Date) : List Date :=
  List.range' s (e + 1 - s)

/-- `count_total_days` (lines 103-104) and `total_calendar_days`
(lines 230, 262, 296): `(end - start).days + 1`. -/
def count_total_days (s e : Date) : Nat := e - s + 1

/-- The unit string offered by the selectbox (line 212). -/
def unit_hourly : String := "Hourly"

/-- The unit string offered by the selectbox (line 212). -/
def unit_quarter : String := "15 mins"

/-- The unit string offered by the selectbox (line 212). -/
def unit_perdiem : String := "Per diem"

/-- A unit string outside the enumerated set, for concrete instances. -/
def unit_unknown : String := "Weekly"

/-- `convert_total` (lines 59-66).  Note the final fallthrough
`return base_hours`: there is no error branch in the source. -/
def convert_total (base_hours : ℚ) (day_count : Nat) (unit : String) : ℚ :=
  if unit = unit_hourly then base_hours
  else if unit = unit_quarter then base_hours * 4
  else if unit = unit_perdiem then (day_count : ℚ)
  else base_hours

/-- `count_weekday` (lines 106-115): closed-form flat count of weekday
`target_wd` in the inclusive span.  The remainder loop
`for i in range(remainder): if (start_wd + i) % 7 == target_wd: count += 1`
is the `countP` term. -/
def count_weekday (s e : Date) (target_wd : Nat) : Nat :=
  let total_days := count_total_days s e
  let full_weeks := total_days / 7
  let remainder := total_days % 7
  let start_wd := weekday s
  full_weeks + (List.range remainder).countP (fun i => (start_wd + i) % 7 == target_wd)

/-- Naive day-by-day enumeration count of a weekday over the span, built on
the source's `daterange_inclusive` generator (spec §4.2 reference
semantics). -/
def naive_count (s e : Date) (w : Nat) : Nat :=
  (daterange_inclusive s e).countP (fun d => weekday d == w)

/-- `monday_of_week` (lines 181-182): `d - timedelta(days=d.weekday())`. -/
def monday_of_week (d : Date) : Date := d - weekday d

/-- Alternating-week bucket tag (`"A"` / `"B"` keys of the counts dict). -/
inductive Bucket
  | A
  | B
deriving DecidableEq

/-- Per-day bucket assignment (lines 188-189):
`week_index = ((d - anchor_monday).days // 7) % 2`, parity 0 → A, 1 → B. -/
def bucket_of (anchor d : Date) : Bucket :=
  if ((d - anchor) / 7) % 2 == 0 then Bucket.A else Bucket.B

/-- The raw per-(bucket, weekday) counts accumulated by the enumeration loop
(lines 186-190), before the zeroing step. -/
def raw_count (s e : Date) (b : Bucket) (w : Nat) : Nat :=
  (daterange_inclusive s e).countP
    (fun d => bucket_of (monday_of_week s) d == b && weekday d == w)

/-- The counts dict after the zeroing step for unselected weekdays
(lines 197-204). -/
def counts_eff (s e : Date) (selA selB : Nat → Bool) (b : Bucket) (w : Nat) : Nat :=
  match b with
  | Bucket.A => if selA w then raw_count s e Bucket.A w else 0
  | Bucket.B => if selB w then raw_count s e Bucket.B w else 0

/-- The hours dict after defaulting (lines 192-195) and zeroing
(lines 197-204). -/
def hours_eff (hrsA hrsB : Nat → ℚ) (selA selB : Nat → Bool) (b : Bucket) (w : Nat) : ℚ :=
  match b with
  | Bucket.A => if selA w then hrsA w else 0
  | Bucket.B => if selB w then hrsB w else 0

/-- `total_days_A` / `total_days_B` (lines 298-299): sum of the zeroed counts
dict values over all 7 weekdays. -/
def total_days_bucket (s e : Date) (selA selB : Nat → Bool) (b : Bucket) : Nat :=
  ((List.range 7).map (counts_eff s e selA selB b)).sum

/-- `base_hours_A` / `base_hours_B` (lines 302-303):
`sum(counts[wd] * hours.get(wd, 0.0) for wd in range(7))`. -/
def base_hours_bucket (s e : Date) (selA selB : Nat → Bool) (hrsA hrsB : Nat → ℚ)
    (b : Bucket) : ℚ :=
  ((List.range 7).map
    (fun w => (counts_eff s e selA selB b w : ℚ) * hours_eff hrsA hrsB selA selB b w)).sum

/-- `final_total` in alternating mode (lines 306-308): convert each bucket
independently, then sum. -/
def final_total_alt (s e : Date) (selA selB : Nat → Bool) (hrsA hrsB : Nat → ℚ)
    (unit : String) : ℚ :=
  convert_total (base_hours_bucket s e selA selB hrsA hrsB Bucket.A)
      (total_days_bucket s e selA selB Bucket.A) unit
    + convert_total (base_hours_bucket s e selA selB hrsA hrsB Bucket.B)
      (total_days_bucket s e selA selB Bucket.B) unit

/-- Single-pattern `total_matching_days` (line 263): sum of the
`selected_counts` dict (line 117), whose keys are the selected weekdays. -/
def total_matching_days_single (s e : Date) (sel : Nat → Bool) : Nat :=
  (((List.range 7).filter sel).map (count_weekday s e)).sum

/-- Single-pattern `base_hours` (line 264):
`sum(selected_counts[wd] * weekday_hours.get(wd, 0.0) for wd in selected_counts)`. -/
def base_hours_single (s e : Date) (sel : Nat → Bool) (hrs : Nat → ℚ) : ℚ :=
  (((List.range 7).filter sel).map (fun w => (count_weekday s e w : ℚ) * hrs w)).sum

/-- Single-pattern `final_total` (line 266). -/
def final_total_single (s e : Date) (sel : Nat → Bool) (hrs : Nat → ℚ)
    (unit : String) : ℚ :=
  convert_total (base_hours_single s e sel hrs) (total_matching_days_single s e sel) unit

/-- CDPAS `weeks_in_span` (line 231): `total_calendar_days / 7.0`. -/
def weeks_in_span (s e : Date) : ℚ := (count_total_days s e : ℚ) / 7

/-- CDPAS `total_hours` (line 233). -/
def cdpas_total_hours (s e : Date) (hours_per_week : ℚ) : ℚ :=
  hours_per_week * weeks_in_span s e

/-- CDPAS `total_15min_units` (line 234). -/
def cdpas_total_15min_units (s e : Date) (hours_per_week : ℚ) : ℚ :=
  cdpas_total_hours s e hours_per_week * 4

/-! ### Helper lemmas -/

/-- Reduce a weekday count over `range' s n` to one over `range n` anchored at
`s % 7`. -/
theorem countP_range'_weekday (s n w : Nat) :
    (List.range' s n).countP (fun d => d % 7 == w)
      = (List.range n).countP (fun i => (s % 7 + i) % 7 == w) := by
  rw [List.range'_eq_map_range, List.countP_map]
  refine List.countP_congr (fun i _ => ?_)
  simp only [Function.comp_apply, beq_iff_eq]
  omega

/-- Any 7 consecutive days contain exactly one day of each weekday. -/
theorem week_countP_eq_one : ∀ a < 7, ∀ w < 7,
    (List.range 7).countP (fun i => (a + i) % 7 == w) = 1 := by decide

/-- Closed form for the weekday count over `range n`: one per full week plus
the remainder scan. -/
theorem countP_range_weekday_split (a w : Nat) (ha : a < 7) (hw : w < 7) :
    ∀ n, (List.range n).countP (fun i => (a + i) % 7 == w)
      = n / 7 + (List.range (n % 7)).countP (fun i => (a + i) % 7 == w) := by
  intro n
  induction n using Nat.strong_induction_on with
  | _ n ih =>
    by_cases h : n < 7
    · rw [Nat.div_eq_of_lt h, Nat.mod_eq_of_lt h, Nat.zero_add]
    · obtain ⟨m, rfl⟩ : ∃ m, n = 7 + m := ⟨n - 7, by omega⟩
      rw [List.range_add, List.countP_append, List.countP_map]
      have h1 : (List.range m).countP ((fun i => (a + i) % 7 == w) ∘ (fun x => 7 + x))
          = (List.range m).countP (fun i => (a + i) % 7 == w) := by
        refine List.countP_congr (fun i _ => ?_)
        simp only [Function.comp_apply, beq_iff_eq]
        omega
      rw [h1, ih m (by omega), week_countP_eq_one a ha w hw]
      have h2 : (7 + m) / 7 = m / 7 + 1 := by omega
      have h3 : (7 + m) % 7 = m % 7 := by omega
      rw [h2, h3]
      generalize (List.range (m % 7)).countP (fun i => (a + i) % 7 == w) = c
      omega

/-- The closed-form `count_weekday` agrees with naive enumeration on valid
spans, for real weekdays. -/
theorem count_weekday_eq_naive (s e w : Nat) (hse : s ≤ e) (hw : w < 7) :
    count_weekday s e w = naive_count s e w := by
  simp only [count_weekday, naive_count, count_total_days, daterange_inclusive, weekday]
  have hn : e + 1 - s = e - s + 1 := by omega
  rw [hn, countP_range'_weekday]
  conv_rhs => rw [countP_range_weekday_split (s % 7) w (Nat.mod_lt _ (by omega)) hw]

/-- Summing per-weekday counts of `p`-days over the 7 weekdays recovers the
total count of `p`-days. -/
theorem sum_countP_weekday (l : List Nat) (p : Nat → Bool) :
    ((List.range 7).map (fun w => l.countP (fun d => p d && d % 7 == w))).sum
      = l.countP p := by
  induction l with
  | nil => simp
  | cons a t ih =>
    simp only [List.countP_cons]
    rw [List.sum_map_add, ih]
    by_cases hpa : p a = true
    · have h1 : ((List.range 7).map
          (fun w => if (p a && a % 7 == w) = true then 1 else 0)).sum = 1 := by
        simp only [hpa, Bool.true_and]
        have h7 : a % 7 < 7 := Nat.mod_lt _ (by omega)
        revert h7
        generalize a % 7 = r
        revert r
        decide
      rw [h1, if_pos hpa]
    · have h1 : ((List.range 7).map
          (fun w => if (p a && a % 7 == w) = true then 1 else 0)).sum = 0 := by
        simp [Bool.and_eq_true, hpa]
      rw [h1, if_neg hpa]

/-- Counts of two pointwise-disjoint predicates add up to the count of their
disjunction. -/
theorem countP_add_countP_disjoint (l : List Nat) (p q : Nat → Bool)
    (h : ∀ d, p d = true → q d = false) :
    l.countP p + l.countP q = l.countP (fun d => p d || q d) := by
  induction l with
  | nil => rfl
  | cons a t ih =>
    simp only [List.countP_cons]
    cases hp : p a
    · cases hq : q a
      · simp_all
      · simp_all
        omega
    · have hq : q a = false := h a hp
      simp_all
      omega

/-- A zeroed bucket count is a count of days gated by the bucket's selection. -/
theorem counts_eff_A_eq_countP (s e : Nat) (selA selB : Nat → Bool) (w : Nat) :
    counts_eff s e selA selB Bucket.A w
      = (daterange_inclusive s e).countP
        (fun d => (bucket_of (monday_of_week s) d == Bucket.A && selA (d % 7))
          && d % 7 == w) := by
  simp only [counts_eff, raw_count, weekday]
  by_cases hA : selA w = true
  · rw [if_pos hA]
    refine List.countP_congr (fun d _ => ?_)
    by_cases hdw : d % 7 = w
    · subst hdw
      simp [hA]
    · simp [hdw]
  · rw [if_neg hA]
    symm
    rw [List.countP_eq_zero]
    intro d _
    simp only [Bool.and_eq_true, beq_iff_eq, not_and]
    intro hb hdw
    rw [hdw] at hb
    exact absurd hb.2 (by simpa using hA)

/-- Same as `counts_eff_A_eq_countP` on the B side. -/
theorem counts_eff_B_eq_countP (s e : Nat) (selA selB : Nat → Bool) (w : Nat) :
    counts_eff s e selA selB Bucket.B w
      = (daterange_inclusive s e).countP
        (fun d => (bucket_of (monday_of_week s) d == Bucket.B && selB (d % 7))
          && d % 7 == w) := by
  simp only [counts_eff, raw_count, weekday]
  by_cases hB : selB w = true
  · rw [if_pos hB]
    refine List.countP_congr (fun d _ => ?_)
    by_cases hdw : d % 7 = w
    · subst hdw
      simp [hB]
    · simp [hdw]
  · rw [if_neg hB]
    symm
    rw [List.countP_eq_zero]
    intro d _
    simp only [Bool.and_eq_true, beq_iff_eq, not_and]
    intro hb hdw
    rw [hdw] at hb
    exact absurd hb.2 (by simpa using hB)

/-- Summing a mapped function over a filtered list equals summing its
selection-gated version over the whole list. -/
theorem sum_map_filter_eq_sum_ite {M : Type} [AddCommMonoid M]
    (l : List Nat) (sel : Nat → Bool) (f : Nat → M) :
    ((l.filter sel).map f).sum = (l.map (fun v => if sel v then f v else 0)).sum := by
  induction l with
  | nil => rfl
  | cons a t ih =>
    by_cases h : sel a = true <;> simp [List.filter_cons, h, ih]

/-! ### Claims -/

/-- C1: for every valid span (`start ≤ end`) and every weekday `w` in 0..6,
the closed-form flat count `count_weekday` equals the count obtained by naive
day-by-day enumeration of the inclusive span. -/
theorem count_weekday_matches_enumeration (s e w : Nat) (hse : s ≤ e) (hw : w < 7) :
    count_weekday s e w = naive_count s e w :=
  count_weekday_eq_naive s e w hse hw

/-- Witness for C1 at the concrete span of days 3..17 and weekday 2. -/
theorem count_weekday_matches_enumeration_witness :
    (3 : Nat) ≤ 17 ∧ (2 : Nat) < 7 ∧ count_weekday 3 17 2 = naive_count 3 17 2 :=
  ⟨by decide, by decide, count_weekday_matches_enumeration 3 17 2 (by decide) (by decide)⟩

/-- C6: for every valid span, `total_calendar_days = (end - start).days + 1`
and the flat weekday counts summed over all 7 weekdays equal
`total_calendar_days`. -/
theorem weekday_count_sum_equals_total (s e : Nat) (hse : s ≤ e) :
    count_total_days s e = e - s + 1
    ∧ ((List.range 7).map (count_weekday s e)).sum = count_total_days s e := by
  refine ⟨rfl, ?_⟩
  have hmap : (List.range 7).map (count_weekday s e)
      = (List.range 7).map (fun w => (daterange_inclusive s e).countP
          (fun d => (fun _ => true) d && d % 7 == w)) := by
    refine List.map_congr_left (fun w hw => ?_)
    rw [count_weekday_eq_naive s e w hse (List.mem_range.mp hw)]
    simp [naive_count, weekday]
  rw [hmap, sum_countP_weekday, List.countP_true]
  simp only [daterange_inclusive, count_total_days, List.length_range']
  omega

/-- Witness for C6 at the concrete span of days 5..25. -/
theorem weekday_count_sum_equals_total_witness :
    count_total_days 5 25 = 25 - 5 + 1
    ∧ ((List.range 7).map (count_weekday 5 25)).sum = count_total_days 5 25 :=
  weekday_count_sum_equals_total 5 25 (by decide)

/-- C2 counterexample: span day 0 (a Monday) .. day 6 (the following Sunday),
Week A selecting only Monday, Week B selecting every weekday.  All 7 days are
assigned to bucket A by the anchor-parity rule, but the reported totals are
`total_days_A = 1` and `total_days_B = 0`, so they do not sum to the 7
calendar days: the claim fails for this choice of weekday selections. -/
theorem alternating_bucket_totals_counterexample :
    ¬ (total_days_bucket 0 6 (fun w => w == 0) (fun _ => true) Bucket.A
        + total_days_bucket 0 6 (fun w => w == 0) (fun _ => true) Bucket.B
        = count_total_days 0 6) := by decide

/-- C2 (amended): in alternating mode every day of the span is assigned to
exactly one of buckets A and B by the anchor-parity rule; the reported totals
`total_days_A + total_days_B` equal the number of days of the span whose
weekday is selected in the bucket the day is assigned to (the zeroing step of
lines 197-204 removes unselected weekdays from the counts first), and they
equal `total_calendar_days` when both selections contain every weekday. -/
theorem alternating_bucket_totals_amended (s e : Nat) (selA selB : Nat → Bool)
    (hse : s ≤ e) :
    (∀ d ∈ daterange_inclusive s e,
        (bucket_of (monday_of_week s) d = Bucket.A
          ↔ ¬ bucket_of (monday_of_week s) d = Bucket.B))
    ∧ total_days_bucket s e selA selB Bucket.A
        + total_days_bucket s e selA selB Bucket.B
        = (daterange_inclusive s e).countP
            (fun d => if bucket_of (monday_of_week s) d = Bucket.A
              then selA (d % 7) else selB (d % 7))
    ∧ ((∀ w, selA w = true) → (∀ w, selB w = true) →
        total_days_bucket s e selA selB Bucket.A
          + total_days_bucket s e selA selB Bucket.B
          = count_total_days s e) := by
  have hA : total_days_bucket s e selA selB Bucket.A
      = (daterange_inclusive s e).countP
          (fun d => bucket_of (monday_of_week s) d == Bucket.A && selA (d % 7)) := by
    unfold total_days_bucket
    rw [List.map_congr_left (fun w _ => counts_eff_A_eq_countP s e selA selB w)]
    exact sum_countP_weekday _ _
  have hB : total_days_bucket s e selA selB Bucket.B
      = (daterange_inclusive s e).countP
          (fun d => bucket_of (monday_of_week s) d == Bucket.B && selB (d % 7)) := by
    unfold total_days_bucket
    rw [List.map_congr_left (fun w _ => counts_eff_B_eq_countP s e selA selB w)]
    exact sum_countP_weekday _ _
  have hdisj : ∀ d, (bucket_of (monday_of_week s) d == Bucket.A && selA (d % 7)) = true →
      (bucket_of (monday_of_week s) d == Bucket.B && selB (d % 7)) = false := by
    intro d hd
    cases hb : bucket_of (monday_of_week s) d
    · simp [hb]
    · rw [hb] at hd
      simp at hd
  have h2 : total_days_bucket s e selA selB Bucket.A
      + total_days_bucket s e selA selB Bucket.B
      = (daterange_inclusive s e).countP
          (fun d => if bucket_of (monday_of_week s) d = Bucket.A
            then selA (d % 7) else selB (d % 7)) := by
    rw [hA, hB, countP_add_countP_disjoint _ _ _ hdisj]
    refine List.countP_congr (fun d _ => ?_)
    cases hb : bucket_of (monday_of_week s) d <;> simp [hb]
  refine ⟨fun d _ => ?_, h2, fun hsa hsb => ?_⟩
  · cases hb : bucket_of (monday_of_week s) d <;> simp [hb]
  · rw [h2]
    have : (daterange_inclusive s e).countP
        (fun d => if bucket_of (monday_of_week s) d = Bucket.A
          then selA (d % 7) else selB (d % 7))
        = (daterange_inclusive s e).countP (fun _ => true) := by
      refine List.countP_congr (fun d _ => ?_)
      cases hb : bucket_of (monday_of_week s) d <;> simp [hb, hsa, hsb]
    rw [this, List.countP_true]
    simp only [daterange_inclusive, count_total_days, List.length_range']
    omega

/-- Witness for C2 (amended) at the span 0..13 with Week A selecting Mon-Fri
and Week B selecting Mon-Wed. -/
theorem alternating_bucket_totals_amended_witness :
    (∀ d ∈ daterange_inclusive 0 13,
        (bucket_of (monday_of_week 0) d = Bucket.A
          ↔ ¬ bucket_of (monday_of_week 0) d = Bucket.B))
    ∧ total_days_bucket 0 13 (fun w => w < 5) (fun w => w < 3) Bucket.A
        + total_days_bucket 0 13 (fun w => w < 5) (fun w => w < 3) Bucket.B
        = (daterange_inclusive 0 13).countP
            (fun d => if bucket_of (monday_of_week 0) d = Bucket.A
              then (fun w => w < 5) (d % 7) else (fun w => w < 3) (d % 7))
    ∧ ((∀ w, (fun w => w < 5 : Nat → Bool) w = true) →
        (∀ w, (fun w => w < 3 : Nat → Bool) w = true) →
        total_days_bucket 0 13 (fun w => w < 5) (fun w => w < 3) Bucket.A
          + total_days_bucket 0 13 (fun w => w < 5) (fun w => w < 3) Bucket.B
          = count_total_days 0 13) :=
  alternating_bucket_totals_amended 0 13 (fun w => w < 5) (fun w => w < 3) (by decide)

/-- `convert_total` on the Hourly unit: base hours unchanged. -/
theorem convert_total_hourly (h : ℚ) (d : Nat) :
    convert_total h d unit_hourly = h := by
  unfold convert_total
  rw [if_pos rfl]

/-- `convert_total` on the 15-minute unit: base hours times 4. -/
theorem convert_total_quarter (h : ℚ) (d : Nat) :
    convert_total h d unit_quarter = h * 4 := by
  unfold convert_total
  rw [if_neg (by decide), if_pos rfl]

/-- `convert_total` on the per-diem unit: the day count, hours ignored. -/
theorem convert_total_perdiem (h : ℚ) (d : Nat) :
    convert_total h d unit_perdiem = (d : ℚ) := by
  unfold convert_total
  rw [if_neg (by decide), if_neg (by decide), if_pos rfl]

/-- `convert_total` on any unit outside the enumerated set: the final
fallthrough returns base hours unchanged. -/
theorem convert_total_unknown (h : ℚ) (d : Nat) (u : String)
    (h1 : u ≠ unit_hourly) (h2 : u ≠ unit_quarter) (h3 : u ≠ unit_perdiem) :
    convert_total h d u = h := by
  unfold convert_total
  rw [if_neg h1, if_neg h2, if_neg h3]

/-- C3 counterexample: `"Weekly"` is outside the three enumerated units, yet
`convert_total 5 3 "Weekly"` returns the value 5 (the base hours) instead of
failing — no `UnknownUnitError` exists anywhere in the source. -/
theorem unknown_unit_error_counterexample :
    unit_unknown ≠ unit_hourly ∧ unit_unknown ≠ unit_quarter
    ∧ unit_unknown ≠ unit_perdiem ∧ convert_total 5 3 unit_unknown = 5 := by
  refine ⟨by decide, by decide, by decide, ?_⟩
  unfold convert_total
  rw [if_neg (by decide), if_neg (by decide), if_neg (by decide)]

/-- C3 (amended): if the requested unit is not one of the three enumerated
units, the conversion does not fail — `convert_total` falls through and
returns `base_hours` unchanged (the Hourly behavior). -/
theorem unknown_unit_error_amended (h : ℚ) (d : Nat) (u : String)
    (h1 : u ≠ unit_hourly) (h2 : u ≠ unit_quarter) (h3 : u ≠ unit_perdiem) :
    convert_total h d u = h :=
  convert_total_unknown h d u h1 h2 h3

/-- Witness for C3 (amended) at `convert_total 9 4 "Weekly"`. -/
theorem unknown_unit_error_amended_witness :
    convert_total 9 4 unit_unknown = 9 :=
  unknown_unit_error_amended 9 4 unit_unknown (by decide) (by decide) (by decide)

/-- C4: `convert(h, d, Hourly) = h`, `convert(h, d, QuarterHour) = h * 4`, and
`convert(h, d, PerDiem) = d` regardless of `h`. -/
theorem convert_total_unit_formulas (h : ℚ) (d : Nat) :
    convert_total h d unit_hourly = h
    ∧ convert_total h d unit_quarter = h * 4
    ∧ convert_total h d unit_perdiem = (d : ℚ) :=
  ⟨convert_total_hourly h d, convert_total_quarter h d, convert_total_perdiem h d⟩

/-- C5: converting each bucket independently and summing (the source's
`final_total = final_total_A + final_total_B`) equals converting the combined
base hours and combined day count directly for the Hourly and QuarterHour
units, and for PerDiem the summed result is the sum of the two buckets' day
counts. -/
theorem bucket_conversion_sum_linearity (s e : Nat) (selA selB : Nat → Bool)
    (hrsA hrsB : Nat → ℚ) :
    final_total_alt s e selA selB hrsA hrsB unit_hourly
      = convert_total
          (base_hours_bucket s e selA selB hrsA hrsB Bucket.A
            + base_hours_bucket s e selA selB hrsA hrsB Bucket.B)
          (total_days_bucket s e selA selB Bucket.A
            + total_days_bucket s e selA selB Bucket.B) unit_hourly
    ∧ final_total_alt s e selA selB hrsA hrsB unit_quarter
      = convert_total
          (base_hours_bucket s e selA selB hrsA hrsB Bucket.A
            + base_hours_bucket s e selA selB hrsA hrsB Bucket.B)
          (total_days_bucket s e selA selB Bucket.A
            + total_days_bucket s e selA selB Bucket.B) unit_quarter
    ∧ final_total_alt s e selA selB hrsA hrsB unit_perdiem
      = (total_days_bucket s e selA selB Bucket.A : ℚ)
        + (total_days_bucket s e selA selB Bucket.B : ℚ) := by
  refine ⟨?_, ?_, ?_⟩
  · simp only [final_total_alt, convert_total_hourly]
  · simp only [final_total_alt, convert_total_quarter]
    ring
  · simp only [final_total_alt, convert_total_perdiem]

/-- C10: `convert_total` is total on unit strings — for every unit other than
the three recognized values it returns `base_hours` unchanged (the Hourly
behavior) instead of raising any error. -/
theorem convert_total_unknown_unit_fallback (h : ℚ) (d : Nat) (u : String)
    (h1 : u ≠ unit_hourly) (h2 : u ≠ unit_quarter) (h3 : u ≠ unit_perdiem) :
    convert_total h d u = h :=
  convert_total_unknown h d u h1 h2 h3

/-- Witness for C10 at `convert_total 7 2 "Weekly"`. -/
theorem convert_total_unknown_unit_fallback_witness :
    convert_total 7 2 unit_unknown = 7 :=
  convert_total_unknown_unit_fallback 7 2 unit_unknown (by decide) (by decide) (by decide)

/-- C7: a single-day span (`start = end`) in alternating mode is assigned to
bucket A (parity 0 relative to the Monday of its own week): the day's bucket
is A, bucket B receives no day for any weekday, and bucket A's raw counts over
the 7 weekdays sum to exactly 1. -/
theorem single_day_span_in_bucket_A (d w : Nat) :
    bucket_of (monday_of_week d) d = Bucket.A
    ∧ raw_count d d Bucket.B w = 0
    ∧ ((List.range 7).map (raw_count d d Bucket.A)).sum = 1 := by
  have hb : bucket_of (monday_of_week d) d = Bucket.A := by
    unfold bucket_of monday_of_week weekday
    have h1 : d - (d - d % 7) = d % 7 := by omega
    rw [h1, Nat.div_eq_of_lt (Nat.mod_lt _ (by omega))]
    rfl
  have hrange : daterange_inclusive d d = [d] := by
    unfold daterange_inclusive
    have h1 : d + 1 - d = 1 := by omega
    rw [h1]
    rfl
  refine ⟨hb, ?_, ?_⟩
  · unfold raw_count
    rw [hrange]
    simp [hb]
  · have hmap : (List.range 7).map (raw_count d d Bucket.A)
        = (List.range 7).map (fun w' => ([d] : List Nat).countP
            (fun x => (bucket_of (monday_of_week d) x == Bucket.A) && x % 7 == w')) := by
      refine List.map_congr_left (fun w' _ => ?_)
      simp only [raw_count, weekday]
      rw [hrange]
    rw [hmap, sum_countP_weekday]
    simp [hb]

/-- C8: a weekday `w` absent from the relevant selection contributes zero to
both the matching-day count and the base hours, even if a nonzero hours value
is associated with it.  In alternating mode the zeroing step forces both the
count and the hours of `w` to 0 in each bucket; in single-pattern mode the
totals are sums of selection-gated per-weekday terms whose term at `w` is 0,
and the base hours are unchanged under any change of the hours entry of `w`. -/
theorem unselected_weekday_contributes_zero
    (s e : Nat) (selA selB sel : Nat → Bool) (hrsA hrsB hrs hrs2 : Nat → ℚ) (w : Nat)
    (hA : selA w = false) (hB : selB w = false) (hs : sel w = false)
    (hagree : ∀ v, v ≠ w → hrs v = hrs2 v) :
    counts_eff s e selA selB Bucket.A w = 0
    ∧ counts_eff s e selA selB Bucket.B w = 0
    ∧ hours_eff hrsA hrsB selA selB Bucket.A w = 0
    ∧ hours_eff hrsA hrsB selA selB Bucket.B w = 0
    ∧ (if sel w then count_weekday s e w else 0) = 0
    ∧ total_matching_days_single s e sel
        = ((List.range 7).map (fun v => if sel v then count_weekday s e v else 0)).sum
    ∧ base_hours_single s e sel hrs
        = ((List.range 7).map
            (fun v => if sel v then (count_weekday s e v : ℚ) * hrs v else 0)).sum
    ∧ base_hours_single s e sel hrs = base_hours_single s e sel hrs2 := by
  refine ⟨?_, ?_, ?_, ?_, ?_, ?_, ?_, ?_⟩
  · simp [counts_eff, hA]
  · simp [counts_eff, hB]
  · simp [hours_eff, hA]
  · simp [hours_eff, hB]
  · simp [hs]
  · unfold total_matching_days_single
    exact sum_map_filter_eq_sum_ite _ _ _
  · unfold base_hours_single
    exact sum_map_filter_eq_sum_ite _ _ _
  · unfold base_hours_single
    refine congrArg List.sum (List.map_congr_left (fun v hv => ?_))
    have hvw : v ≠ w := by
      intro hvw
      rw [hvw] at hv
      have hw' : sel w = true := (List.mem_filter.mp hv).2
      rw [hs] at hw'
      exact Bool.false_ne_true hw'
    rw [hagree v hvw]

/-- Witness for C8 at the span 0..13, with Mon-Fri selections, weekday 5
(Saturday) unselected, and two hours maps that differ only at Saturday. -/
theorem unselected_weekday_contributes_zero_witness :
    counts_eff 0 13 (fun v => v < 5) (fun v => v < 5) Bucket.A 5 = 0
    ∧ counts_eff 0 13 (fun v => v < 5) (fun v => v < 5) Bucket.B 5 = 0
    ∧ hours_eff (fun _ => 8) (fun _ => 8) (fun v => v < 5) (fun v => v < 5) Bucket.A 5 = 0
    ∧ hours_eff (fun _ => 8) (fun _ => 8) (fun v => v < 5) (fun v => v < 5) Bucket.B 5 = 0
    ∧ (if (fun v => v < 5 : Nat → Bool) 5 then count_weekday 0 13 5 else 0) = 0
    ∧ total_matching_days_single 0 13 (fun v => v < 5)
        = ((List.range 7).map
            (fun v => if (fun v => v < 5 : Nat → Bool) v then count_weekday 0 13 v else 0)).sum
    ∧ base_hours_single 0 13 (fun v => v < 5) (fun v => if v = 5 then 3 else 8)
        = ((List.range 7).map
            (fun v => if (fun v => v < 5 : Nat → Bool) v
              then (count_weekday 0 13 v : ℚ) * (fun v => if v = 5 then (3 : ℚ) else 8) v
              else 0)).sum
    ∧ base_hours_single 0 13 (fun v => v < 5) (fun v => if v = 5 then 3 else 8)
        = base_hours_single 0 13 (fun v => v < 5) (fun v => if v = 5 then 0 else 8) :=
  unselected_weekday_contributes_zero 0 13 (fun v => v < 5) (fun v => v < 5)
    (fun v => v < 5) (fun _ => 8) (fun _ => 8) (fun v => if v = 5 then 3 else 8)
    (fun v => if v = 5 then 0 else 8) 5 (by decide) (by decide) (by decide)
    (fun v hv => by simp [hv])

/-- C9: in prorated-weekly (CDPAS) mode, for every valid span and
`hours_per_week` in `[0, 168]`, the number of weeks is exactly
`total_calendar_days / 7` (so multiplying back by 7 recovers the day count
with no rounding), `total_hours = hours_per_week * weeks_in_span`,
`total_15min_units = total_hours * 4`, and a 10-day span at 40 hours/week
yields exactly `400 / 7` total hours (57.14 to 2 decimals). -/
theorem cdpas_weekly_proration (s e : Nat) (hpw : ℚ) (_hse : s ≤ e)
    (_h0 : 0 ≤ hpw) (_h168 : hpw ≤ 168) :
    weeks_in_span s e * 7 = (count_total_days s e : ℚ)
    ∧ cdpas_total_hours s e hpw = hpw * weeks_in_span s e
    ∧ cdpas_total_15min_units s e hpw = cdpas_total_hours s e hpw * 4
    ∧ (count_total_days s e = 10 → hpw = 40 →
        cdpas_total_hours s e hpw = 400 / 7) := by
  refine ⟨?_, rfl, rfl, ?_⟩
  · unfold weeks_in_span
    rw [div_mul_cancel₀]
    norm_num
  · intro h10 h40
    unfold cdpas_total_hours weeks_in_span
    rw [h10, h40]
    norm_num

/-- Witness for C9 at the 10-day span 0..9 with 40 hours per week. -/
theorem cdpas_weekly_proration_witness :
    weeks_in_span 0 9 * 7 = (count_total_days 0 9 : ℚ)
    ∧ cdpas_total_hours 0 9 40 = 40 * weeks_in_span 0 9
    ∧ cdpas_total_15min_units 0 9 40 = cdpas_total_hours 0 9 40 * 4
    ∧ (count_total_days 0 9 = 10 → (40 : ℚ) = 40 →
        cdpas_total_hours 0 9 40 = 400 / 7) :=
  cdpas_weekly_proration 0 9 40 (by decide) (by norm_num) (by norm_num)
